import Mathlib

/-!
# Verification of the caisterstorm simulation core

Shallow embedding of the real-time simulation core of the repository:
the movement/collision engine, the interaction dispatcher and its
per-object state machines, the chapter-ending event sequencer, and the
zone-triggered horror-event system (main module `StoryManager.js`
together with `HorrorEvents.js` and the level builders
`CoolingTunnels`/`SecretLab`/`LegacyHQ`/`Rooftop`).

Conventions of the embedding:
* World coordinates are fixed-point integers: one Lean unit is 0.01 of
  a JavaScript world unit (every coordinate constant in the source is a
  multiple of 0.01, so the scaling is exact).  E.g. the player bounding
  box size `(0.5, 1.7, 0.5)` becomes `(50, 170, 50)` and the hatch
  teleport target `(-13, -2.3, -26)` becomes `(-1300, -230, -2600)`.
  All the properties verified here are order/equality statements, which
  the uniform scaling preserves.
* The only non-finite values the code produces are the `±Infinity`
  bounds that `THREE.Box3.makeEmpty` writes into a retracted collider,
  so box bounds live in `ENum := WithBot (WithTop ℤ)` (`⊥ = -∞`,
  `⊤ = +∞`).
* Euclidean distance comparisons `p.distanceTo(q) < r` are embedded as
  the equivalent squared comparison `dist² < r²` (every radius in the
  code is positive), keeping everything decidable.
* Deferred work (`setTimeout` callbacks, animation-completion
  callbacks) is modelled as explicit scheduled tasks appended to the
  session state and executed by a separate task-runner function, in
  the order the host runtime would fire them.
-/

namespace Caisterstorm

/-- Extended coordinates: box bounds, including the `±Infinity` written
by `THREE.Box3.makeEmpty`. -/
abbrev ENum := WithBot (WithTop ℤ)

/-- Injection of a finite coordinate into the extended line. -/
def q2e (q : ℤ) : ENum := ((q : WithTop ℤ) : ENum)

/-- A 3-D point/vector with finite coordinates (`THREE.Vector3` as used
for positions, sizes, and move vectors), in hundredth-units. -/
structure Vec3 where
  x : ℤ
  y : ℤ
  z : ℤ
deriving DecidableEq

/-- Embedding of `THREE.Box3`: an axis-aligned box given by its min and max corners. -/
structure Box3 where
  minX : ENum
  minY : ENum
  minZ : ENum
  maxX : ENum
  maxY : ENum
  maxZ : ENum
deriving DecidableEq

/-- Embedding of `Box3.makeEmpty()`: min set to `+Infinity`, max set to `-Infinity`.
This is the retracted state of a door collider. -/
def Box3.emptyBox : Box3 :=
  { minX := ⊤, minY := ⊤, minZ := ⊤, maxX := ⊥, maxY := ⊥, maxZ := ⊥ }

/-- Embedding of `Box3.setFromCenterAndSize(center, size)`: corners at
`center ∓ size/2`.  (The only size fed through this in the source is
the player size `(50, 170, 50)`, whose components are even, so the
integer halving is exact.) -/
def Box3.setFromCenterAndSize (c s : Vec3) : Box3 :=
  { minX := q2e (c.x - s.x / 2)
    minY := q2e (c.y - s.y / 2)
    minZ := q2e (c.z - s.z / 2)
    maxX := q2e (c.x + s.x / 2)
    maxY := q2e (c.y + s.y / 2)
    maxZ := q2e (c.z + s.z / 2) }

/-- Embedding of `Box3.intersectsBox(box)` (three.js): boxes are separated exactly
when some axis interval of one lies strictly beyond the other; touching
boxes count as intersecting.  An empty box (`min = +∞ > max = -∞`)
intersects nothing. -/
def Box3.intersectsBox (self box : Box3) : Bool :=
  !(decide (box.maxX < self.minX) || decide (box.minX > self.maxX) ||
    decide (box.maxY < self.minY) || decide (box.minY > self.maxY) ||
    decide (box.maxZ < self.minZ) || decide (box.minZ > self.maxZ))

/-- The constant `playerSize = new THREE.Vector3(0.5, 1.7, 0.5)` — the player
bounding box dimensions (in hundredth-units). -/
def playerSize : Vec3 := ⟨50, 170, 50⟩

/-- The player bounding box centred at a position
(`playerBox.setFromCenterAndSize(newPos, playerSize)`). -/
def playerBoxAt (pos : Vec3) : Box3 :=
  Box3.setFromCenterAndSize pos playerSize

/-- Embedding of `checkCollision(newPos)`: the player box at `newPos` against every
entry of `wallBoxes`; true as soon as one intersects. -/
def checkCollision (wallBoxes : List Box3) (newPos : Vec3) : Bool :=
  wallBoxes.any fun box => (playerBoxAt newPos).intersectsBox box

/-- Result of one tick of per-axis movement resolution: the final
camera position and which axes were reverted. -/
structure MoveResult where
  pos : Vec3
  blockedX : Bool
  blockedZ : Bool
deriving DecidableEq

/-- The per-axis movement resolution from the game loop (`animate`,
taken when `state.direction.length() > 0`): tentatively apply the X
delta and revert it if `checkCollision` reports an overlap, then do the
same for the Z delta from the position the X step produced.  The Y
component of `moveVec` is zero in the source (the camera basis is
flattened onto the XZ plane) and is ignored here. -/
def resolveMove (walls : List Box3) (pos mv : Vec3) : MoveResult :=
  let tryX : Vec3 := ⟨pos.x + mv.x, pos.y, pos.z⟩
  let bx := checkCollision walls tryX
  let x1 := if bx then pos.x else pos.x + mv.x
  let tryZ : Vec3 := ⟨x1, pos.y, pos.z + mv.z⟩
  let bz := checkCollision walls tryZ
  let z1 := if bz then pos.z else pos.z + mv.z
  { pos := ⟨x1, pos.y, z1⟩, blockedX := bx, blockedZ := bz }

/-- A concrete wall for the C1 witness: the slab `x ∈ [1, 2]`,
`y ∈ [0, 3]`, `z ∈ [-10, 10]` (in world units; stored scaled). -/
def c1WitnessWall : Box3 :=
  { minX := q2e 100, minY := q2e 0, minZ := q2e (-1000),
    maxX := q2e 200, maxY := q2e 300, maxZ := q2e 1000 }

/-! ## The interaction dispatcher and object state machines

`tryInteract` (StoryManager.js) raycasts from the view centre and
dispatches on the hit object's `userData.type`.  The raycast itself is
geometric (meshes, camera orientation) and outside the state model; the
embedding takes the resolved hit — the index of the nearest interactable
record, or `none` on a miss — as an input and models everything from
the `userData` guard onwards. -/

/-- The `userData.type` tags of the interactable records, as produced by the
level builders. -/
inductive IKind
  | note
  | terminal
  | vhs
  | door
  | final_terminal
  | keycard
  | valve
  | hatch
  | keycard_10
  | escape_door
  | locked_door
deriving DecidableEq

/-- Fire-and-forget audio cues (`AudioManager`); `tone f d v` is
`_playTone(freq, duration, volume)` with the duration in milliseconds
and the volume in thousandths (JS `_playTone(150, 0.15, 0.1)` becomes
`tone 150 150 100`). -/
inductive Cue
  | click
  | terminalBeep
  | staticNoise
  | doorSlam
  | scare
  | alarm
  | bassBoom
  | heartbeat
  | tone (freq durMs volPermille : ℕ)
deriving DecidableEq

/-- The mutable `userData` bag of one interactable record, restricted to
the fields the state machines read or write.  Fields not meaningful for
a kind keep their build-time defaults.  Colors are hex values
(indicator materials start red `0xff0000`; the security-door light
starts `0xff2200`). -/
structure ObjState where
  kind : IKind
  interactable : Bool := true
  visible : Bool := true
  glowVisible : Bool := true
  opened : Bool := false
  turned : Bool := false
  indicColor : ℕ := 0xff0000
  secLightColor : ℕ := 0xff2200
  wheelSpins : ℕ := 0
  doorColliderLeft : Option ℕ := none
  doorColliderRight : Option ℕ := none
  doorColliderIdx : Option ℕ := none
deriving DecidableEq

/-- Deferred work registered by the state machines: every `setTimeout`
callback and animation-completion callback that mutates simulation
state.  `cinStep k` is the `k`-th scheduled step (k = 1..6) of
`triggerChapter2Cinematic` (step 0 runs synchronously). -/
inductive Deferred
  | doorRetract (l r : Option ℕ)
  | secDoorRetract (l r : Option ℕ)
  | escapeOpen (idx : Option ℕ)
  | escapeTeleport
  | valveExit (idx : ℕ)
  | cinStep (k : ℕ)
deriving DecidableEq

/-- The constant `state.playerHeight = 1.7` (scaled). -/
def playerHeight : ℤ := 170

/-- The shared session state (the `state` object of StoryManager.js plus
the references it holds).  Defaults are the values established by
`init()`: chapter 1, no keycards, zero counters, `entitySystem = null`
(modelled as `false`), camera at the lobby spawn `(0, 1.7, 5.5)`.
`horrorTriggered` is `horrorEvents.triggered` (a `Set` of event ids);
`horrorUpdates`/`entityUpdates` count how many times the gated
`horrorEvents.update`/`entitySystem.update` calls actually ran.
`cues` and `hints` record the audio and hint side effects in order. -/
structure GameState where
  paused : Bool := false
  noteOpen : Bool := false
  chapter : ℕ := 1
  collectiblesFound : ℕ := 0
  valvesTurned : ℕ := 0
  hasKeycard : Bool := false
  hasKeycard10 : Bool := false
  finalTerminalRead : Bool := false
  pendingCinematic : Bool := false
  blackout : Bool := false
  cameraPos : Vec3 := ⟨0, 170, 550⟩
  objs : List ObjState := []
  wallBoxes : List Box3 := []
  exitDoorColliderIdx : ℕ := 0
  hatchIdx : Option ℕ := none
  rooftopTriggered : Bool := false
  entitySystem : Bool := false
  horrorTriggered : List String := []
  horrorUpdates : ℕ := 0
  entityUpdates : ℕ := 0
  scheduled : List Deferred := []
  cues : List Cue := []
  hints : List String := []
deriving DecidableEq

/-- Embedding of `showHint(text)`: push hint text to the presentation layer. -/
def showHint (t : String) (s : GameState) : GameState :=
  { s with hints := s.hints ++ [t] }

/-- An `audioManager.playXxx()` / `_playTone` call. -/
def playCue (c : Cue) (s : GameState) : GameState :=
  { s with cues := s.cues ++ [c] }

/-- Embedding of `openNote(content)`: opens the modal note view and sets
`state.noteOpen` (the typewriter reveal and pointer-lock release are
presentation-layer). -/
def openNote (s : GameState) : GameState :=
  { s with noteOpen := true }

/-- Embedding of `openDoor(doorData)` (plain interior door): one-way guard on
`opened`, door-slam cue, slide animation whose completion retracts the
two referenced colliders (deferred). -/
def openDoor (i : ℕ) (obj : ObjState) (s : GameState) : GameState :=
  if obj.opened then s
  else
    let s1 := { s with objs := s.objs.set i { obj with opened := true } }
    let s2 := playCue .doorSlam s1
    { s2 with
      scheduled := s2.scheduled ++ [.doorRetract obj.doorColliderLeft obj.doorColliderRight] }

/-- Embedding of `openSecurityDoor(doorData)`: one-way guard on `opened`, indicator
and security light turn green, beep + hint, then a delayed heavy slide
whose completion retracts both colliders (deferred). -/
def openSecurityDoor (i : ℕ) (obj : ObjState) (s : GameState) : GameState :=
  if obj.opened then s
  else
    let s1 := { s with
      objs := s.objs.set i
        { obj with opened := true, indicColor := 0x00ff00, secLightColor := 0x00ff44 } }
    let s2 := showHint ("ACCESS GRANTED") (playCue .terminalBeep s1)
    { s2 with
      scheduled := s2.scheduled ++ [.secDoorRetract obj.doorColliderLeft obj.doorColliderRight] }

/-- Embedding of `triggerChapter2Cinematic()`: freezes the player, runs step 0
(terminal beep, boot hint, light surge) synchronously and schedules the
six timed steps (2 s, 4.5 s, 5.5 s, 7.5 s, 12 s, 14 s). -/
def triggerChapter2Cinematic (s : GameState) : GameState :=
  let s1 := { s with paused := true }
  let s2 := showHint ("SYSTEM BOOT DETECTED...") (playCue .terminalBeep s1)
  { s2 with scheduled := s2.scheduled ++
      [.cinStep 1, .cinStep 2, .cinStep 3, .cinStep 4, .cinStep 5, .cinStep 6] }

/-- The timed steps of the chapter-ending cinematic.  Light-intensity
mutations (`scene.traverse`) are render-state and not tracked; the
state-machine-relevant effects are the blackout overlay, the hatch
unlock (step 5, at 12 s: `hd.interactable = true`), and the control
handoff (step 6, at 14 s: `state.paused = false`). -/
def applyCinStep (k : ℕ) (s : GameState) : GameState :=
  match k with
  | 1 => showHint ("WARNING: UNAUTHORIZED SYSTEM ACCESS") (playCue .alarm s)
  | 2 => playCue .bassBoom s
  | 3 => playCue .scare { showHint ("EMERGENCY LOCKDOWN INITIATED") s with blackout := true }
  | 4 => playCue .heartbeat { s with blackout := false }
  | 5 =>
    let s1 :=
      match s.hatchIdx with
      | some h =>
        match s.objs[h]? with
        | some hd => { s with objs := s.objs.set h { hd with interactable := true } }
        | none => s
      | none => s
    showHint ("Maintenance hatch unlocked - find it!") (playCue .click s1)
  | 6 => showHint ("Find a way out!") { s with paused := false }
  | _ => s

/-- Execute one deferred task.  `doorRetract` checks, as the source
does, that the left collider index is defined before retracting (the
right index is always defined alongside it in the level data);
`secDoorRetract` and `escapeOpen` index unconditionally in the source,
and their indices are always defined. -/
def runDeferred (d : Deferred) (s : GameState) : GameState :=
  match d with
  | .doorRetract l r =>
    let s1 :=
      match l, r with
      | some li, some ri =>
        { s with wallBoxes := (s.wallBoxes.set li Box3.emptyBox).set ri Box3.emptyBox }
      | _, _ => s
    showHint ("The hallway stretches into darkness...") s1
  | .secDoorRetract l r =>
    let s1 := playCue .doorSlam s
    match l, r with
    | some li, some ri =>
      showHint ("The darkness deepens ahead...")
        { s1 with wallBoxes := (s1.wallBoxes.set li Box3.emptyBox).set ri Box3.emptyBox }
    | _, _ => s1
  | .escapeOpen idx =>
    let s1 := playCue .doorSlam s
    let s2 :=
      match idx with
      | some k => { s1 with wallBoxes := s1.wallBoxes.set k Box3.emptyBox }
      | none => s1
    { s2 with scheduled := s2.scheduled ++ [.escapeTeleport] }
  | .escapeTeleport =>
    showHint ("You emerge onto the rooftop...")
      { s with cameraPos := ⟨3700, 400 + playerHeight, -2200⟩ }
  | .valveExit idx =>
    let s1 := playCue .terminalBeep (showHint ("POWER RESTORED - Exit unsealed") s)
    { s1 with wallBoxes := s1.wallBoxes.set idx Box3.emptyBox }
  | .cinStep k => applyCinStep k s

/-- The body of the `tryInteract` type dispatch for a resolved hit
object: returns the new state and whether control fell through to the
`state.collectiblesFound++` at the end of the hit branch (`false`
exactly for the `return` statements inside the `hatch`, `escape_door`
and `locked_door` cases). -/
def dispatch (i : ℕ) (obj : ObjState) (s : GameState) : GameState × Bool :=
  match obj.kind with
  | .note => (openNote s, true)
  | .terminal => (playCue .terminalBeep (openNote s), true)
  | .vhs => (playCue .staticNoise (openNote s), true)
  | .door => (openDoor i obj s, true)
  | .final_terminal =>
    let s1 := playCue .terminalBeep (openNote s)
    ({ s1 with finalTerminalRead := true, pendingCinematic := true }, true)
  | .keycard =>
    let s1 := { s with
      hasKeycard := true,
      objs := s.objs.set i { obj with visible := false, interactable := false, glowVisible := false } }
    (showHint ("Level 5 Access Card acquired") (playCue .click s1), true)
  | .valve =>
    if obj.turned then (s, true)
    else
      let s1 := { s with
        objs := s.objs.set i
          { obj with turned := true, wheelSpins := obj.wheelSpins + 1, indicColor := 0x00ff00 } }
      let s2 := playCue (.tone (300 + 100 * s1.valvesTurned) 300 150) s1
      let s3 := { s2 with valvesTurned := s2.valvesTurned + 1 }
      let s4 := showHint ("Valve " ++ toString s3.valvesTurned ++ "/3 activated") s3
      (if 3 ≤ s4.valvesTurned then
        { s4 with scheduled := s4.scheduled ++ [.valveExit s4.exitDoorColliderIdx] }
      else s4, true)
  | .hatch =>
    if !s.finalTerminalRead || !obj.interactable then
      (showHint ("The hatch is sealed shut") s, false)
    else
      let s1 := { s with cameraPos := ⟨-1300, -400 + playerHeight, -2600⟩ }
      (playCue .doorSlam (showHint ("You descend into the cooling tunnels...") s1), true)
  | .keycard_10 =>
    let s1 := { s with
      hasKeycard10 := true,
      objs := s.objs.set i { obj with visible := false, interactable := false, glowVisible := false } }
    (showHint ("Level 10 Emergency Keycard acquired") (playCue .click s1), true)
  | .escape_door =>
    if obj.opened then (s, false)
    else if !s.hasKeycard10 then
      (playCue (.tone 150 150 100) (showHint ("LOCKED - Level 10 clearance required") s), true)
    else
      let s1 := { s with
        objs := s.objs.set i { obj with opened := true, indicColor := 0x00ff00 } }
      let s2 := showHint ("ACCESS GRANTED - Get to the roof!") (playCue .terminalBeep s1)
      ({ s2 with scheduled := s2.scheduled ++ [.escapeOpen obj.doorColliderIdx] }, true)
  | .locked_door =>
    if obj.opened then (s, false)
    else if !s.hasKeycard then
      (playCue (.tone 150 150 100) (showHint ("LOCKED - You need a security access card") s), true)
    else (openSecurityDoor i obj s, true)

/-- Embedding of `tryInteract()`: rejected while paused or while a note is open;
on a resolved hit, rejected if `userData.interactable === false`;
otherwise dispatch by type, and — unless the branch returned early —
increment `state.collectiblesFound`. -/
def tryInteract (hit : Option ℕ) (s : GameState) : GameState :=
  if s.paused || s.noteOpen then s
  else
    match hit with
    | none => s
    | some i =>
      match s.objs[i]? with
      | none => s
      | some obj =>
        if obj.interactable = false then s
        else
          match dispatch i obj s with
          | (s1, true) => { s1 with collectiblesFound := s1.collectiblesFound + 1 }
          | (s1, false) => s1

/-- Embedding of `closeNote()`: clears `noteOpen` and, if a cinematic is pending in
chapter 1, consumes the flag and starts the chapter-ending cinematic. -/
def closeNote (s : GameState) : GameState :=
  let s1 := { s with noteOpen := false }
  if s1.pendingCinematic && s1.chapter == 1 then
    triggerChapter2Cinematic { s1 with pendingCinematic := false }
  else s1

/-- The rooftop chapter-end zone test from the game loop (`animate`):
`inZone` is the containment test of the player position in the trigger
zone's cached bounding box (the zone sits on the rooftop, so the test
is only reachable when the player is on the rooftop floor band). -/
def rooftopTick (inZone : Bool) (s : GameState) : GameState :=
  if !s.rooftopTriggered && inZone then
    triggerChapter2Cinematic { s with rooftopTriggered := true }
  else s

/-! ## HorrorEvents zone triggers -/

/-- One entry of the `HorrorEvents` zone-event list:
`{ id, zone, radius, type }` (the handler `type` only selects which
audio/visual effect fires and does not feed back into trigger state). -/
structure HorrorEvent where
  id : String
  zone : Vec3
  radius : ℤ
deriving DecidableEq

/-- The eight zone events from the `HorrorEvents` constructor
(coordinates scaled by 100). -/
def horrorEventList : List HorrorEvent :=
  [ ⟨"lobby_enter", ⟨0, 170, 800⟩, 400⟩
  , ⟨"hall_midpoint", ⟨0, 170, -300⟩, 300⟩
  , ⟨"office_enter", ⟨-600, 170, -300⟩, 300⟩
  , ⟨"server_approach", ⟨500, 170, -500⟩, 300⟩
  , ⟨"server_deep", ⟨900, 170, -900⟩, 300⟩
  , ⟨"break_room", ⟨-1200, 170, -1900⟩, 400⟩
  , ⟨"basement_enter", ⟨1200, 170, -1600⟩, 300⟩
  , ⟨"basement_deep", ⟨1200, 170, -2400⟩, 300⟩ ]

/-- The test `playerPos.distanceTo(zone) < radius`, embedded as the equivalent
squared comparison (all radii are positive). -/
def distLt (p q : Vec3) (r : ℤ) : Bool :=
  decide ((p.x - q.x) ^ 2 + (p.y - q.y) ^ 2 + (p.z - q.z) ^ 2 < r ^ 2)

/-- The zone-trigger loop at the top of `HorrorEvents.update`: walk the
event list; for each event not yet in the `triggered` set whose zone
contains the player, add it to the set and fire its handler.  Returns
the new `triggered` set and the ids fired this tick, in firing order.
(The remainder of `update` — the random ambient-scare timer, the
whisper roll, flicker and shadow-figure fading — neither reads nor
writes `triggered` and fires no zone handler.) -/
def horrorZoneTick : List HorrorEvent → Vec3 → List String → List String × List String
  | [], _, trig => (trig, [])
  | e :: rest, pos, trig =>
    if e.id ∈ trig then horrorZoneTick rest pos trig
    else if distLt pos e.zone e.radius then
      ((horrorZoneTick rest pos (trig ++ [e.id])).1,
        e.id :: (horrorZoneTick rest pos (trig ++ [e.id])).2)
    else horrorZoneTick rest pos trig

/-- One `HorrorEvents.update` call restricted to its zone-trigger
effect. -/
def horrorZonesUpdate (pos : Vec3) (trig : List String) : List String × List String :=
  horrorZoneTick horrorEventList pos trig

/-- A session of `update` calls against a sequence of player positions:
final `triggered` set and all handler firings in order. -/
def horrorRun : List Vec3 → List String → List String × List String
  | [], trig => (trig, [])
  | p :: ps, trig =>
    ((horrorRun ps (horrorZonesUpdate p trig).1).1,
      (horrorZonesUpdate p trig).2 ++ (horrorRun ps (horrorZonesUpdate p trig).1).2)

/-- The rooftop chapter-end trigger viewed as a pure boolean process:
per tick, fire iff not yet triggered and the player is in the zone;
record the per-tick firing flags. -/
def rooftopTrace : List Bool → Bool → List Bool
  | [], _ => []
  | b :: bs, trig =>
    let fire := !trig && b
    fire :: rooftopTrace bs (trig || fire)

/-! ## Session operations (the per-tick mutators of the shared state) -/

/-- The state-mutating operations of one session, as invoked from the
game loop and the input handlers: an interact (with its resolved
raycast hit), closing the note modal, the firing of the next pending
timer/animation callback, the rooftop-zone containment test, and the
two chapter-gated updates from `animate`
(`if (horrorEvents && state.chapter >= 2) horrorEvents.update(...)`,
`if (entitySystem && state.chapter >= 2) entitySystem.update(...)`). -/
inductive Op
  | interact (hit : Option ℕ)
  | closeNoteOp
  | flushTask
  | rooftopZone (inZone : Bool)
  | horrorTick (pos : Vec3)
  | entityTick
deriving DecidableEq

/-- Apply one session operation. -/
def stepOp (op : Op) (s : GameState) : GameState :=
  match op with
  | .interact h => tryInteract h s
  | .closeNoteOp => closeNote s
  | .flushTask =>
    match s.scheduled with
    | [] => s
    | d :: rest => runDeferred d { s with scheduled := rest }
  | .rooftopZone b => rooftopTick b s
  | .horrorTick pos =>
    if 2 ≤ s.chapter then
      { s with
        horrorTriggered := (horrorZonesUpdate pos s.horrorTriggered).1,
        horrorUpdates := s.horrorUpdates + 1 }
    else s
  | .entityTick =>
    if s.entitySystem && decide (2 ≤ s.chapter) then
      { s with entityUpdates := s.entityUpdates + 1 }
    else s

/-- Apply a list of session operations in order. -/
def runOps (ops : List Op) (s : GameState) : GameState :=
  ops.foldl (fun t op => stepOp op t) s

/-- The session state right after `init()`, parameterised by the level
data the builders return (interactable records, collision boxes, the
hatch-trigger reference, the tunnel exit-door collider index).  All
other fields take their `init()` values: `chapter = 1`,
`entitySystem = null`, empty `triggered` set, zero counters. -/
def initState (objs : List ObjState) (walls : List Box3)
    (hatchIdx : Option ℕ) (exitIdx : ℕ) : GameState :=
  { objs := objs, wallBoxes := walls, hatchIdx := hatchIdx,
    exitDoorColliderIdx := exitIdx }

/-! ## The chapter-ending cinematic schedule (timing view) -/

/-- The seven steps of `triggerChapter2Cinematic`, by effect. -/
inductive CinStep
  | bootDetected
  | alarmFlicker
  | shakeBassBoom
  | lockdownBlackout
  | redEmergencyLights
  | hatchUnlock
  | controlHandoff
deriving DecidableEq

/-- The canonical chapter-ending schedule: `(offset in ms, step)` pairs,
exactly the synchronous step plus the six `setTimeout` registrations
(2000, 4500, 5500, 7500, 12000, 14000 ms). -/
def cinSchedule : List (ℕ × CinStep) :=
  [ (0, .bootDetected)
  , (2000, .alarmFlicker)
  , (4500, .shakeBassBoom)
  , (5500, .lockdownBlackout)
  , (7500, .redEmergencyLights)
  , (12000, .hatchUnlock)
  , (14000, .controlHandoff) ]

/-- The hatch's `userData.interactable` flag as a function of the time
`t` (ms) since the cinematic run started: created `false` by the level
builder (`LegacyHQ`: `interactable: false // Activated during
lockdown`) and set `true` by the `hatchUnlock` step once its offset has
elapsed (a `setTimeout(f, d)` callback fires once elapsed ≥ d). -/
def hatchInteractableAt (t : ℕ) : Bool :=
  (cinSchedule.filter fun st => decide (st.1 ≤ t)).any fun st =>
    decide (st.2 = CinStep.hatchUnlock)

/-! ## Claim C9: chapter stays 1, entity stays null, horror never runs -/

/-- The session fields claim C9 is about: `chapter`, `entitySystem`,
the two gated-update counters, and the HorrorEvents `triggered` set. -/
def horrorFrame (s : GameState) : ℕ × Bool × ℕ × ℕ × List String :=
  (s.chapter, s.entitySystem, s.horrorUpdates, s.entityUpdates, s.horrorTriggered)

/-! ## Claim C4: object state machine transitions are one-way -/

/-- The `opened` flag of the interactable record at index `i`
(`false` for a miss). -/
def openedAt (s : GameState) (i : ℕ) : Bool :=
  match s.objs[i]? with
  | some o => o.opened
  | none => false

/-- The `turned` flag of the interactable record at index `i`. -/
def turnedAt (s : GameState) (i : ℕ) : Bool :=
  match s.objs[i]? with
  | some o => o.turned
  | none => false

/-- A sequence of `tryInteract` calls (each with its resolved raycast
hit), applied in order. -/
def runInteracts (hits : List (Option ℕ)) (s : GameState) : GameState :=
  hits.foldl (fun t h => tryInteract h t) s

/-- One-way ordering between session states: every `opened`/`turned`
flag and both keycard flags only ever go false→true. -/
def stateLe (s t : GameState) : Prop :=
  (s.hasKeycard = true → t.hasKeycard = true) ∧
  (s.hasKeycard10 = true → t.hasKeycard10 = true) ∧
  ∀ j : ℕ, (openedAt s j = true → openedAt t j = true) ∧
    (turnedAt s j = true → turnedAt t j = true)

/-! ## Claim C3: the valve counter counts distinct turned valves -/

/-- A tunnel valve as built by `CoolingTunnels`
(`{ interactable: true, type: 'valve', turned: false, ... }`, red
indicator). -/
def valveObj : ObjState := { kind := .valve }

/-- The session restricted to the three-valve puzzle: the three valve
records (at hit indices 0, 1, 2) and `state.valvesTurned = 0`, as after
`init()`. -/
def valvesInit : GameState := initState [valveObj, valveObj, valveObj] [] none 0

/-- Interact with the three valves in the order given by `seq`. -/
def interactValves (seq : List (Fin 3)) : GameState :=
  runInteracts (seq.map fun i => some i.val) valvesInit

/-! ## Claim C8: when the collectibles counter increments -/

/-- The exact condition under which one `tryInteract` call increments
`state.collectiblesFound`: a resolved hit on an interactable record
that does not take one of the three early `return`s (sealed hatch,
already-open escape door, already-open security door).  Note this
includes keycard-rejected door interactions, repeat interactions on an
open plain door, and repeat interactions on a turned valve. -/
def incrCond (hit : Option ℕ) (s : GameState) : Bool :=
  match hit with
  | none => false
  | some i =>
    match s.objs[i]? with
    | none => false
    | some obj =>
      !(s.paused || s.noteOpen) && obj.interactable &&
        (!(decide (obj.kind = .hatch) && (!s.finalTerminalRead || !obj.interactable)) &&
         !(decide (obj.kind = .escape_door) && obj.opened) &&
         !(decide (obj.kind = .locked_door) && obj.opened))

/-- The state for the C8 counterexample: a locked security door, no
keycard held, counter 0. -/
def c8State : GameState := initState [{ kind := .locked_door }] [] none 0

/-! ## Claim C10: the maintenance hatch guard -/

/-- The maintenance hatch as built by `LegacyHQ`
(`interactable: false // Activated during lockdown`). -/
def hatchSealedObj : ObjState := { kind := .hatch, interactable := false }

/-- A session whose only interactable is the sealed hatch (hit index 0,
also registered as `state.hatchTrigger`). -/
def c10State : GameState := initState [hatchSealedObj] [] (some 0) 0

/-- The rooftop route to the chapter-ending cinematic: the trigger zone
fires, all six scheduled cinematic steps run (the fifth unlocks the
hatch, the sixth unfreezes the player), then the player interacts with
the hatch. -/
def c10RooftopOps : List Op :=
  [.rooftopZone true, .flushTask, .flushTask, .flushTask, .flushTask, .flushTask,
    .flushTask, .interact (some 0)]

/-! ## Claim C5: the locked security door scenario -/

/-- The security blast door as built by `LegacyHQ` (locked, red
indicator, collider indices for both leaves). -/
def c5DoorObj : ObjState :=
  { kind := .locked_door, doorColliderLeft := some 0, doorColliderRight := some 1 }

/-- The level-5 keycard pickup. -/
def c5KeycardObj : ObjState := { kind := .keycard }

/-- A concrete (non-empty) collider box standing for one door leaf. -/
def c5Wall : Box3 :=
  { minX := q2e (-100), minY := q2e 0, minZ := q2e (-25),
    maxX := q2e 100, maxY := q2e 350, maxZ := q2e 25 }

/-- Session with the locked door (hit 0, colliders 0 and 1) and the
keycard (hit 1); the player holds no keycard. -/
def c5Init : GameState := initState [c5DoorObj, c5KeycardObj] [c5Wall, c5Wall] none 0

/-- Interact with the locked door without the keycard. -/
def c5AfterDenied : GameState := tryInteract (some 0) c5Init

/-- Then collect the keycard. -/
def c5AfterKeycard : GameState := tryInteract (some 1) c5AfterDenied

/-- Then interact with the door again. -/
def c5AfterOpen : GameState := tryInteract (some 0) c5AfterKeycard

/-- Then the scheduled slide-animation completion fires. -/
def c5AfterRetract : GameState := runOps [Op.flushTask] c5AfterOpen

/-- A further interact on the now-open door. -/
def c5Reinteract : GameState := tryInteract (some 0) c5AfterRetract

/-! ## Claim C1: per-axis resolution gives loss-free sliding -/

/-- Claim C1: Per-axis movement resolution, started from a position that
does not overlap any active collider, (a) never produces an overlapping
position, and — sliding is loss-free along the unblocked axis — (b) if
the X delta was reverted and the Z delta kept, the result is exactly
the pre-move position with only the Z component applied (and by (a) it
is overlap-free), and symmetrically (c) if the Z delta was reverted and
the X delta kept, the result is exactly the pre-move position with only
the X component applied. -/
theorem c1_per_axis_sliding (walls : List Box3) (pos mv : Vec3)
    (h : checkCollision walls pos = false) :
    checkCollision walls (resolveMove walls pos mv).pos = false ∧
    ((resolveMove walls pos mv).blockedX = true ∧
      (resolveMove walls pos mv).blockedZ = false →
      (resolveMove walls pos mv).pos = ⟨pos.x, pos.y, pos.z + mv.z⟩) ∧
    ((resolveMove walls pos mv).blockedZ = true ∧
      (resolveMove walls pos mv).blockedX = false →
      (resolveMove walls pos mv).pos = ⟨pos.x + mv.x, pos.y, pos.z⟩) := by
  unfold resolveMove
  by_cases hbx : checkCollision walls ⟨pos.x + mv.x, pos.y, pos.z⟩ = true
  · simp only [hbx, if_true]
    by_cases hbz : checkCollision walls ⟨pos.x, pos.y, pos.z + mv.z⟩ = true
    · simp [hbx, hbz, h]
    · simp only [Bool.not_eq_true] at hbz
      simp [hbx, hbz]
  · simp only [Bool.not_eq_true] at hbx
    simp only [hbx, if_false, Bool.false_eq_true]
    by_cases hbz : checkCollision walls ⟨pos.x + mv.x, pos.y, pos.z + mv.z⟩ = true
    · simpa [hbz] using hbx
    · simp only [Bool.not_eq_true] at hbz
      simp [hbz]

/-- Witness for C1 at a concrete input: one wall box to the player's
right, starting position collision-free, move vector pointing
diagonally into the wall; the result of the per-axis resolution is
collision-free. -/
theorem c1_per_axis_sliding_witness :
    checkCollision [c1WitnessWall] ⟨0, 100, 0⟩ = false ∧
    checkCollision [c1WitnessWall]
      (resolveMove [c1WitnessWall] ⟨0, 100, 0⟩ ⟨100, 0, 100⟩).pos = false := by
  refine ⟨by decide, ?_⟩
  exact (c1_per_axis_sliding [c1WitnessWall] ⟨0, 100, 0⟩ ⟨100, 0, 100⟩ (by decide)).1

/-! ## Claim C2: a retracted collider never re-intersects any query -/

/-- A retracted (empty) box intersects no player bounding box: its max
corner `-∞` lies strictly below the player box's finite min corner. -/
lemma playerBox_vs_empty (p : Vec3) :
    (playerBoxAt p).intersectsBox Box3.emptyBox = false := by
  have h : Box3.emptyBox.maxX < (playerBoxAt p).minX := by
    simp only [Box3.emptyBox, playerBoxAt, Box3.setFromCenterAndSize, q2e]
    exact WithBot.bot_lt_coe _
  simp [Box3.intersectsBox, h]

/-- Writing an empty box anywhere in the collider store keeps an
already-empty slot empty. -/
lemma getElem?_set_emptyBox (l : List Box3) (j k : ℕ)
    (h : l[k]? = some Box3.emptyBox) :
    (l.set j Box3.emptyBox)[k]? = some Box3.emptyBox := by
  rw [List.getElem?_set]
  by_cases hjk : j = k
  · subst hjk
    have hlt : j < l.length := by
      by_contra hlen
      rw [List.getElem?_eq_none (Nat.le_of_not_lt hlen)] at h
      exact Option.noConfusion h
    simp [hlt]
  · simp [hjk, h]

/-- The interaction dispatch never mutates the collider store directly
(all retractions are deferred to animation completions). -/
lemma dispatch_wallBoxes (i : ℕ) (obj : ObjState) (s : GameState) :
    (dispatch i obj s).1.wallBoxes = s.wallBoxes := by
  cases hk : obj.kind <;>
    simp [dispatch, hk, openDoor, openSecurityDoor, openNote, showHint, playCue,
      apply_ite (GameState.wallBoxes)] <;>
    (repeat' split) <;> rfl

/-- The function `tryInteract` never mutates the collider store. -/
lemma tryInteract_wallBoxes (hit : Option ℕ) (s : GameState) :
    (tryInteract hit s).wallBoxes = s.wallBoxes := by
  unfold tryInteract
  split
  · rfl
  · match hit with
    | none => rfl
    | some i =>
      simp only
      match hobj : s.objs[i]? with
      | none => rfl
      | some obj =>
        simp only
        split
        · rfl
        · match hd : dispatch i obj s with
          | (s1, b) =>
            have hw : s1.wallBoxes = s.wallBoxes := by
              have := dispatch_wallBoxes i obj s
              rw [hd] at this
              exact this
            cases b <;> simpa using hw

/-- The cinematic trigger and its steps never mutate the collider
store. -/
lemma triggerCinematic_wallBoxes (s : GameState) :
    (triggerChapter2Cinematic s).wallBoxes = s.wallBoxes := by
  simp [triggerChapter2Cinematic, showHint, playCue]

/-- No cinematic step mutates the collider store. -/
lemma applyCinStep_wallBoxes (k : ℕ) (t : GameState) :
    (applyCinStep k t).wallBoxes = t.wallBoxes := by
  unfold applyCinStep
  split <;> simp [showHint, playCue] <;> (repeat' split) <;> rfl

/-- Every session operation preserves an already-retracted collider:
the only collider-store writes anywhere in the model are `makeEmpty`
retractions, and re-retracting is idempotent. -/
lemma stepOp_preserves_empty (op : Op) (s : GameState) (k : ℕ)
    (h : s.wallBoxes[k]? = some Box3.emptyBox) :
    (stepOp op s).wallBoxes[k]? = some Box3.emptyBox := by
  cases op with
  | interact hit => rw [stepOp, tryInteract_wallBoxes]; exact h
  | closeNoteOp =>
    rw [stepOp]
    unfold closeNote
    dsimp only
    split
    · rw [triggerCinematic_wallBoxes]; exact h
    · exact h
  | flushTask =>
    rw [stepOp]
    match hs : s.scheduled with
    | [] => exact h
    | d :: rest =>
      simp only
      cases d with
      | doorRetract l r =>
        cases l with
        | none => cases r <;> simpa [runDeferred, showHint] using h
        | some li =>
          cases r with
          | none => simpa [runDeferred, showHint] using h
          | some ri =>
            simp only [runDeferred, showHint]
            exact getElem?_set_emptyBox _ _ _ (getElem?_set_emptyBox _ _ _ h)
      | secDoorRetract l r =>
        cases l with
        | none => cases r <;> simpa [runDeferred, showHint, playCue] using h
        | some li =>
          cases r with
          | none => simpa [runDeferred, showHint, playCue] using h
          | some ri =>
            simp only [runDeferred, showHint, playCue]
            exact getElem?_set_emptyBox _ _ _ (getElem?_set_emptyBox _ _ _ h)
      | escapeOpen idx =>
        cases idx with
        | none => simpa [runDeferred, playCue] using h
        | some j =>
          simp only [runDeferred, playCue]
          exact getElem?_set_emptyBox _ _ _ h
      | escapeTeleport => simpa [runDeferred, showHint] using h
      | valveExit idx =>
        simp only [runDeferred, showHint, playCue]
        exact getElem?_set_emptyBox _ _ _ h
      | cinStep n =>
        simp only [runDeferred]
        rw [applyCinStep_wallBoxes]
        exact h
  | rooftopZone b =>
    rw [stepOp]
    unfold rooftopTick
    split
    · rw [triggerCinematic_wallBoxes]; exact h
    · exact h
  | horrorTick pos =>
    rw [stepOp]
    split <;> simpa using h
  | entityTick =>
    rw [stepOp]
    split <;> simpa using h

/-- Claim C2: A collider that has been retracted (collapsed to the empty
box, as the door / security-door / valve-exit / escape-door completion
callbacks do via `makeEmpty`) stays retracted across every sequence of
subsequent session operations, and the player-bounding-box collision
query reports no intersection with it at any player position. -/
theorem c2_retracted_collider_invariant (ops : List Op) (s : GameState) (k : ℕ)
    (h : s.wallBoxes[k]? = some Box3.emptyBox) :
    (runOps ops s).wallBoxes[k]? = some Box3.emptyBox ∧
    ∀ p : Vec3,
      ((runOps ops s).wallBoxes[k]?.map fun b => (playerBoxAt p).intersectsBox b) =
        some false := by
  have hmain : (runOps ops s).wallBoxes[k]? = some Box3.emptyBox := by
    induction ops generalizing s with
    | nil => exact h
    | cons op rest ih => exact ih _ (stepOp_preserves_empty op s k h)
  refine ⟨hmain, fun p => ?_⟩
  rw [hmain]
  simp [playerBox_vs_empty]

/-- Witness for C2: a one-collider store whose only box is already
retracted; after a deferred-task flush the query still reports no
intersection. -/
theorem c2_retracted_collider_invariant_witness :
    (initState [] [Box3.emptyBox] none 0).wallBoxes[0]? = some Box3.emptyBox ∧
    ((runOps [Op.flushTask] (initState [] [Box3.emptyBox] none 0)).wallBoxes[0]? =
        some Box3.emptyBox ∧
      ∀ p : Vec3,
        ((runOps [Op.flushTask] (initState [] [Box3.emptyBox] none 0)).wallBoxes[0]?.map
            fun b => (playerBoxAt p).intersectsBox b) = some false) :=
  ⟨rfl, c2_retracted_collider_invariant [Op.flushTask] _ 0 rfl⟩

/-! ## Claim C6: zone triggers fire at most once -/

/-- After a zone tick, the `triggered` set is the old set extended by
exactly the ids fired this tick, in order: `triggered` only ever
grows, and it grows by what fired. -/
lemma horrorZoneTick_fst_eq (evts : List HorrorEvent) (pos : Vec3) (trig : List String) :
    (horrorZoneTick evts pos trig).1 = trig ++ (horrorZoneTick evts pos trig).2 := by
  induction evts generalizing trig with
  | nil => simp [horrorZoneTick]
  | cons e rest ih =>
    unfold horrorZoneTick
    split
    · exact ih trig
    · split
      · rw [ih (trig ++ [e.id])]
        simp
      · exact ih trig

/-- An id already in the `triggered` set never fires during a tick. -/
lemma horrorZoneTick_count_of_mem (evts : List HorrorEvent) (pos : Vec3)
    (trig : List String) (id : String) (h : id ∈ trig) :
    ((horrorZoneTick evts pos trig).2).count id = 0 := by
  induction evts generalizing trig with
  | nil => simp [horrorZoneTick]
  | cons e rest ih =>
    unfold horrorZoneTick
    split
    · exact ih trig h
    · split
      · rename_i hni _
        have hne : id ≠ e.id := fun heq => hni (heq ▸ h)
        have hrec := ih (trig ++ [e.id]) (List.mem_append_left _ h)
        simp [List.count_cons, hrec, hne]
      · exact ih trig h

/-- Within a single tick, any id fires at most once. -/
lemma horrorZoneTick_count_le_one (evts : List HorrorEvent) (pos : Vec3)
    (trig : List String) (id : String) :
    ((horrorZoneTick evts pos trig).2).count id ≤ 1 := by
  induction evts generalizing trig with
  | nil => simp [horrorZoneTick]
  | cons e rest ih =>
    unfold horrorZoneTick
    split
    · exact ih trig
    · split
      · by_cases hid : id = e.id
        · rw [hid]
          have h0 := horrorZoneTick_count_of_mem rest pos (trig ++ [e.id]) e.id
            (List.mem_append_right _ (List.mem_singleton.mpr rfl))
          simp [List.count_cons, h0]
        · have := ih (trig ++ [e.id])
          simp [List.count_cons, hid]
          omega
      · exact ih trig

/-- An id that fired during a tick is in the new `triggered` set. -/
lemma horrorZoneTick_mem_of_fired (evts : List HorrorEvent) (pos : Vec3)
    (trig : List String) (id : String)
    (h : 1 ≤ ((horrorZoneTick evts pos trig).2).count id) :
    id ∈ (horrorZoneTick evts pos trig).1 := by
  rw [horrorZoneTick_fst_eq]
  exact List.mem_append_right _ (List.count_pos_iff.mp h)

/-- Over a whole session, an id already in `triggered` never fires. -/
lemma horrorRun_count_of_mem (ps : List Vec3) (trig : List String) (id : String)
    (h : id ∈ trig) :
    ((horrorRun ps trig).2).count id = 0 := by
  induction ps generalizing trig with
  | nil => simp [horrorRun]
  | cons p ps ih =>
    unfold horrorRun
    simp only [List.count_append]
    have h1 := horrorZoneTick_count_of_mem horrorEventList p trig id h
    have hmem : id ∈ (horrorZonesUpdate p trig).1 := by
      rw [horrorZonesUpdate, horrorZoneTick_fst_eq]
      exact List.mem_append_left _ h
    have h2 := ih (horrorZonesUpdate p trig).1 hmem
    simp only [horrorZonesUpdate] at h1 h2 ⊢
    omega

/-- Over a whole session from any starting set, an id fires at most
once. -/
lemma horrorRun_count_le_one (ps : List Vec3) (trig : List String) (id : String) :
    ((horrorRun ps trig).2).count id ≤ 1 := by
  induction ps generalizing trig with
  | nil => simp [horrorRun]
  | cons p ps ih =>
    unfold horrorRun
    simp only [List.count_append]
    rcases Nat.lt_or_ge (((horrorZonesUpdate p trig).2).count id) 1 with h1 | h1
    · have h0 : ((horrorZonesUpdate p trig).2).count id = 0 := Nat.lt_one_iff.mp h1
      have := ih (horrorZonesUpdate p trig).1
      omega
    · have hle : ((horrorZonesUpdate p trig).2).count id ≤ 1 :=
        horrorZoneTick_count_le_one horrorEventList p trig id
      have hmem : id ∈ (horrorZonesUpdate p trig).1 :=
        horrorZoneTick_mem_of_fired horrorEventList p trig id h1
      have h2 := horrorRun_count_of_mem ps (horrorZonesUpdate p trig).1 id hmem
      omega

/-- The rooftop trigger process never fires once `triggered` is set. -/
lemma rooftopTrace_true_count (ins : List Bool) :
    (rooftopTrace ins true).count true = 0 := by
  induction ins with
  | nil => simp [rooftopTrace]
  | cons b bs ih => simpa [rooftopTrace, List.count_cons] using ih

/-- The rooftop trigger fires at most once from any starting state. -/
lemma rooftopTrace_count_le_one (ins : List Bool) (trig : Bool) :
    (rooftopTrace ins trig).count true ≤ 1 := by
  induction ins generalizing trig with
  | nil => simp [rooftopTrace]
  | cons b bs ih =>
    cases trig with
    | true => simp [rooftopTrace, List.count_cons, rooftopTrace_true_count]
    | false =>
      cases b with
      | false => simpa [rooftopTrace, List.count_cons] using ih false
      | true => simp [rooftopTrace, List.count_cons, rooftopTrace_true_count]

/-- Claim C6: Zone triggers fire at most once per session: (a) over any
sequence of per-tick player positions starting from the empty
`triggered` set, each HorrorEvents zone id fires its handler at most
once; (b) each `update` call only ever grows the `triggered` set, by
exactly the ids fired that tick (monotone false→true); (c) the rooftop
chapter-end trigger fires at most once over any sequence of
containment-test results; and (d) once its `triggered` flag is set,
the rooftop check is a no-op on the session state, however long the
player dwells in or re-enters the zone. -/
theorem c6_zone_triggers_fire_at_most_once :
    (∀ (ps : List Vec3) (id : String), ((horrorRun ps []).2).count id ≤ 1) ∧
    (∀ (pos : Vec3) (trig : List String),
        (horrorZonesUpdate pos trig).1 = trig ++ (horrorZonesUpdate pos trig).2) ∧
    (∀ ins : List Bool, (rooftopTrace ins false).count true ≤ 1) ∧
    (∀ (b : Bool) (s : GameState),
        rooftopTick b { s with rooftopTriggered := true } =
          { s with rooftopTriggered := true }) := by
  refine ⟨fun ps id => horrorRun_count_le_one ps [] id,
    fun pos trig => horrorZoneTick_fst_eq horrorEventList pos trig,
    fun ins => rooftopTrace_count_le_one ins false,
    fun b s => ?_⟩
  simp [rooftopTick]

/-! ## Claim C7: timing of the hatch unlock in the chapter-ending run -/

/-- Claim C7 counterexample: The claim asserts the hatch still reports
`interactable:false` at t = 13.9 s; but the `hatchUnlock` step of the
canonical schedule fires at its 12 s offset, so at 13.9 s the hatch
reports `interactable:true`. -/
theorem c7_hatch_unlock_timing_counterexample :
    hatchInteractableAt 13900 = true := by decide

/-- Claim C7 amended: For the canonical 7-step chapter-ending run
started at t = 0, the hatch reports `interactable:false` at t = 11.9 s
and `interactable:true` at t = 12.1 s (and still `true` at 13.9 s —
the unlock is one-way). -/
theorem c7_hatch_unlock_timing :
    cinSchedule.length = 7 ∧
    hatchInteractableAt 11900 = false ∧
    hatchInteractableAt 12100 = true ∧
    hatchInteractableAt 13900 = true := by decide

/-- The interaction dispatch touches none of the C9 fields. -/
lemma dispatch_horrorFrame (i : ℕ) (obj : ObjState) (s : GameState) :
    horrorFrame (dispatch i obj s).1 = horrorFrame s := by
  cases hk : obj.kind <;>
    simp [dispatch, hk, horrorFrame, openDoor, openSecurityDoor, openNote, showHint,
      playCue] <;>
    (repeat' split) <;> simp

/-- The function `tryInteract` touches none of the C9 fields. -/
lemma tryInteract_horrorFrame (hit : Option ℕ) (s : GameState) :
    horrorFrame (tryInteract hit s) = horrorFrame s := by
  unfold tryInteract
  split
  · rfl
  · match hit with
    | none => rfl
    | some i =>
      simp only
      match hobj : s.objs[i]? with
      | none => rfl
      | some obj =>
        simp only
        split
        · rfl
        · match hd : dispatch i obj s with
          | (s1, b) =>
            have hw : horrorFrame s1 = horrorFrame s := by
              have := dispatch_horrorFrame i obj s
              rw [hd] at this
              exact this
            cases b <;> simpa [horrorFrame] using hw

/-- The cinematic trigger touches none of the C9 fields. -/
lemma triggerCinematic_horrorFrame (s : GameState) :
    horrorFrame (triggerChapter2Cinematic s) = horrorFrame s := by
  simp [triggerChapter2Cinematic, horrorFrame, showHint, playCue]

/-- No cinematic step touches the C9 fields. -/
lemma applyCinStep_horrorFrame (k : ℕ) (t : GameState) :
    horrorFrame (applyCinStep k t) = horrorFrame t := by
  unfold applyCinStep
  split <;> simp [horrorFrame, showHint, playCue] <;> (repeat' split) <;> simp

/-- No deferred task touches the C9 fields. -/
lemma runDeferred_horrorFrame (d : Deferred) (s : GameState) :
    horrorFrame (runDeferred d s) = horrorFrame s := by
  cases d with
  | cinStep k => simpa [runDeferred] using applyCinStep_horrorFrame k s
  | _ =>
    simp [runDeferred, horrorFrame, showHint, playCue] <;>
      (repeat' split) <;> simp

/-- The function `closeNote` touches none of the C9 fields. -/
lemma closeNote_horrorFrame (s : GameState) :
    horrorFrame (closeNote s) = horrorFrame s := by
  unfold closeNote
  dsimp only
  split
  · rw [triggerCinematic_horrorFrame]; rfl
  · rfl

/-- The rooftop check touches none of the C9 fields. -/
lemma rooftopTick_horrorFrame (b : Bool) (s : GameState) :
    horrorFrame (rooftopTick b s) = horrorFrame s := by
  unfold rooftopTick
  split
  · rw [triggerCinematic_horrorFrame]; rfl
  · rfl

/-- Every session operation preserves the C9 invariant: the chapter is
never written, the entity system is never instantiated, and with
`chapter = 1` the gates `chapter >= 2` of the horror/entity updates
evaluate false, so the gated updates never run. -/
lemma stepOp_c9_invariant (op : Op) (s : GameState)
    (h : horrorFrame s = (1, false, 0, 0, [])) :
    horrorFrame (stepOp op s) = (1, false, 0, 0, []) := by
  have hch : s.chapter = 1 := congrArg (fun t => t.1) h
  have hent : s.entitySystem = false := congrArg (fun t => t.2.1) h
  cases op with
  | interact hit => rw [stepOp, tryInteract_horrorFrame]; exact h
  | closeNoteOp => rw [stepOp, closeNote_horrorFrame]; exact h
  | flushTask =>
    rw [stepOp]
    match s.scheduled with
    | [] => exact h
    | d :: rest =>
      simp only
      rw [runDeferred_horrorFrame]
      exact h
  | rooftopZone b => rw [stepOp, rooftopTick_horrorFrame]; exact h
  | horrorTick pos =>
    rw [stepOp]
    simp only [hch]
    norm_num
    exact h
  | entityTick =>
    rw [stepOp]
    simp only [hent, Bool.false_and, Bool.false_eq_true, if_false]
    exact h

/-- Claim C9: In every session state reachable from `init()` by any
sequence of session operations, the chapter is still 1 and the entity
system is still null; consequently the chapter-gated
`horrorEvents.update` (zone triggers, ambient-scare timer, whisper
roll) and `entitySystem.update` never ran: their run counters are 0
and the HorrorEvents `triggered` set is still empty. -/
theorem c9_chapter_one_horror_dormant (objs : List ObjState) (walls : List Box3)
    (hatchIdx : Option ℕ) (exitIdx : ℕ) (ops : List Op) :
    (runOps ops (initState objs walls hatchIdx exitIdx)).chapter = 1 ∧
    (runOps ops (initState objs walls hatchIdx exitIdx)).entitySystem = false ∧
    (runOps ops (initState objs walls hatchIdx exitIdx)).horrorUpdates = 0 ∧
    (runOps ops (initState objs walls hatchIdx exitIdx)).entityUpdates = 0 ∧
    (runOps ops (initState objs walls hatchIdx exitIdx)).horrorTriggered = [] := by
  have hinv : ∀ (t : GameState), horrorFrame t = (1, false, 0, 0, []) →
      horrorFrame (runOps ops t) = (1, false, 0, 0, []) := by
    induction ops with
    | nil => intro t ht; exact ht
    | cons op rest ih =>
      intro t ht
      exact ih (stepOp op t) (stepOp_c9_invariant op t ht)
  have h0 : horrorFrame (initState objs walls hatchIdx exitIdx) = (1, false, 0, 0, []) := rfl
  have hfin := hinv _ h0
  simp only [horrorFrame, Prod.mk.injEq] at hfin
  exact ⟨hfin.1, hfin.2.1, hfin.2.2.1, hfin.2.2.2.1, hfin.2.2.2.2⟩

lemma stateLe_refl (s : GameState) : stateLe s s :=
  ⟨fun h => h, fun h => h, fun _ => ⟨fun h => h, fun h => h⟩⟩

lemma stateLe_trans {s t u : GameState} (h1 : stateLe s t) (h2 : stateLe t u) :
    stateLe s u :=
  ⟨fun h => h2.1 (h1.1 h), fun h => h2.2.1 (h1.2.1 h),
    fun j => ⟨fun h => (h2.2.2 j).1 ((h1.2.2 j).1 h),
      fun h => (h2.2.2 j).2 ((h1.2.2 j).2 h)⟩⟩

/-- A state whose `objs` is `s.objs.set i obj'` is above `s` whenever
the record at `i` is `obj` and `obj'` strengthens its flags. -/
lemma stateLe_of_set (s t : GameState) (i : ℕ) (obj obj' : ObjState)
    (hobj : s.objs[i]? = some obj)
    (ho : obj.opened = true → obj'.opened = true)
    (ht : obj.turned = true → obj'.turned = true)
    (hobjs : t.objs = s.objs.set i obj')
    (hk : s.hasKeycard = true → t.hasKeycard = true)
    (hk10 : s.hasKeycard10 = true → t.hasKeycard10 = true) :
    stateLe s t := by
  refine ⟨hk, hk10, fun j => ?_⟩
  have hlen : i < s.objs.length := by
    by_contra hlt
    rw [List.getElem?_eq_none (Nat.le_of_not_lt hlt)] at hobj
    exact Option.noConfusion hobj
  constructor <;> intro h
  · rw [openedAt, hobjs, List.getElem?_set]
    by_cases hij : i = j
    · subst hij
      rw [openedAt, hobj] at h
      simp [hlen, ho h]
    · simp only [hij, if_false]
      rw [openedAt] at h
      exact h
  · rw [turnedAt, hobjs, List.getElem?_set]
    by_cases hij : i = j
    · subst hij
      rw [turnedAt, hobj] at h
      simp [hlen, ht h]
    · simp only [hij, if_false]
      rw [turnedAt] at h
      exact h

/-- A state with the same `objs` and no-weaker keycard flags is above
`s`. -/
lemma stateLe_of_objs_eq (s t : GameState)
    (hobjs : t.objs = s.objs)
    (hk : s.hasKeycard = true → t.hasKeycard = true)
    (hk10 : s.hasKeycard10 = true → t.hasKeycard10 = true) :
    stateLe s t := by
  refine ⟨hk, hk10, fun j => ?_⟩
  rw [openedAt, openedAt, turnedAt, turnedAt, hobjs]
  exact ⟨fun h => h, fun h => h⟩

/-- Each dispatch branch only ever strengthens `opened`/`turned` and
the keycard flags (every transition is guarded one-way). -/
lemma dispatch_stateLe (i : ℕ) (obj : ObjState) (s : GameState)
    (hobj : s.objs[i]? = some obj) :
    stateLe s (dispatch i obj s).1 := by
  cases hk : obj.kind with
  | note =>
    refine stateLe_of_objs_eq _ _ ?_ ?_ ?_ <;> simp [dispatch, hk, openNote]
  | terminal =>
    refine stateLe_of_objs_eq _ _ ?_ ?_ ?_ <;> simp [dispatch, hk, openNote, playCue]
  | vhs =>
    refine stateLe_of_objs_eq _ _ ?_ ?_ ?_ <;> simp [dispatch, hk, openNote, playCue]
  | final_terminal =>
    refine stateLe_of_objs_eq _ _ ?_ ?_ ?_ <;> simp [dispatch, hk, openNote, playCue]
  | door =>
    by_cases hop : obj.opened = true
    · have hd : dispatch i obj s = (s, true) := by
        simp [dispatch, hk, openDoor, hop]
      rw [hd]
      exact stateLe_refl s
    · refine stateLe_of_set s _ i obj { obj with opened := true } hobj
        (fun _ => rfl) (fun h => h) ?_ ?_ ?_ <;>
        simp [dispatch, hk, openDoor, hop, playCue]
  | keycard =>
    refine stateLe_of_set s _ i obj
      { obj with visible := false, interactable := false, glowVisible := false } hobj
      (fun h => h) (fun h => h) ?_ ?_ ?_ <;>
      simp [dispatch, hk, showHint, playCue]
  | keycard_10 =>
    refine stateLe_of_set s _ i obj
      { obj with visible := false, interactable := false, glowVisible := false } hobj
      (fun h => h) (fun h => h) ?_ ?_ ?_ <;>
      simp [dispatch, hk, showHint, playCue]
  | valve =>
    by_cases htn : obj.turned = true
    · have hd : dispatch i obj s = (s, true) := by
        simp [dispatch, hk, htn]
      rw [hd]
      exact stateLe_refl s
    · have hobjs : (dispatch i obj s).1.objs =
          s.objs.set i
            { obj with turned := true, wheelSpins := obj.wheelSpins + 1, indicColor := 0x00ff00 } := by
        simp only [dispatch, hk, showHint, playCue]
        rw [if_neg htn]
        split <;> rfl
      have hkc : (dispatch i obj s).1.hasKeycard = s.hasKeycard := by
        simp only [dispatch, hk, showHint, playCue]
        rw [if_neg htn]
        split <;> rfl
      have hkc10 : (dispatch i obj s).1.hasKeycard10 = s.hasKeycard10 := by
        simp only [dispatch, hk, showHint, playCue]
        rw [if_neg htn]
        split <;> rfl
      exact stateLe_of_set s _ i obj
        { obj with turned := true, wheelSpins := obj.wheelSpins + 1, indicColor := 0x00ff00 }
        hobj (fun h => h) (fun _ => rfl) hobjs
        (fun h => by rw [hkc]; exact h) (fun h => by rw [hkc10]; exact h)
  | hatch =>
    by_cases hg : (!s.finalTerminalRead || !obj.interactable) = true
    · refine stateLe_of_objs_eq _ _ ?_ ?_ ?_ <;> simp [dispatch, hk, hg, showHint]
    · refine stateLe_of_objs_eq _ _ ?_ ?_ ?_ <;> simp [dispatch, hk, hg, showHint, playCue]
  | escape_door =>
    by_cases hop : obj.opened = true
    · have hd : dispatch i obj s = (s, false) := by simp [dispatch, hk, hop]
      rw [hd]
      exact stateLe_refl s
    · by_cases hkc : s.hasKeycard10 = true
      · refine stateLe_of_set s _ i obj
          { obj with opened := true, indicColor := 0x00ff00 } hobj
          (fun _ => rfl) (fun h => h) ?_ ?_ ?_ <;>
          simp [dispatch, hk, hop, hkc, showHint, playCue]
      · have hkc' : s.hasKeycard10 = false := by
          cases h : s.hasKeycard10
          · rfl
          · exact absurd h hkc
        refine stateLe_of_objs_eq _ _ ?_ ?_ ?_ <;>
          simp [dispatch, hk, hop, hkc', showHint, playCue]
  | locked_door =>
    by_cases hop : obj.opened = true
    · have hd : dispatch i obj s = (s, false) := by simp [dispatch, hk, hop]
      rw [hd]
      exact stateLe_refl s
    · by_cases hkc : s.hasKeycard = true
      · refine stateLe_of_set s _ i obj
          { obj with opened := true, indicColor := 0x00ff00, secLightColor := 0x00ff44 } hobj
          (fun _ => rfl) (fun h => h) ?_ ?_ ?_ <;>
          simp [dispatch, hk, hop, hkc, openSecurityDoor, showHint, playCue]
      · have hkc' : s.hasKeycard = false := by
          cases h : s.hasKeycard
          · rfl
          · exact absurd h hkc
        refine stateLe_of_objs_eq _ _ ?_ ?_ ?_ <;>
          simp [dispatch, hk, hop, hkc', showHint, playCue]

/-- One `tryInteract` call only ever strengthens the one-way flags. -/
lemma tryInteract_stateLe (hit : Option ℕ) (s : GameState) :
    stateLe s (tryInteract hit s) := by
  unfold tryInteract
  split
  · exact stateLe_refl s
  · match hit with
    | none => exact stateLe_refl s
    | some i =>
      simp only
      match hobj : s.objs[i]? with
      | none => exact stateLe_refl s
      | some obj =>
        simp only
        split
        · exact stateLe_refl s
        · match hd : dispatch i obj s with
          | (s1, b) =>
            have hle : stateLe s s1 := by
              have := dispatch_stateLe i obj s hobj
              rw [hd] at this
              exact this
            cases b
            · exact hle
            · exact stateLe_trans hle
                (stateLe_of_objs_eq s1 _ rfl (fun h => h) (fun h => h))

/-- Claim C4: Once a door's or escape door's `opened`, a valve's
`turned`, or a keycard-collected flag is true, no sequence of further
interact calls ever returns it to false: every object state machine
transition is one-way, guarded against re-entry at the top of its
transition. -/
theorem c4_transitions_one_way (hits : List (Option ℕ)) (s : GameState) :
    (∀ j : ℕ, openedAt s j = true → openedAt (runInteracts hits s) j = true) ∧
    (∀ j : ℕ, turnedAt s j = true → turnedAt (runInteracts hits s) j = true) ∧
    (s.hasKeycard = true → (runInteracts hits s).hasKeycard = true) ∧
    (s.hasKeycard10 = true → (runInteracts hits s).hasKeycard10 = true) := by
  have hle : stateLe s (runInteracts hits s) := by
    induction hits generalizing s with
    | nil => exact stateLe_refl s
    | cons hit rest ih =>
      exact stateLe_trans (tryInteract_stateLe hit s) (ih (tryInteract hit s))
  exact ⟨fun j => (hle.2.2 j).1, fun j => (hle.2.2 j).2, hle.1, hle.2.1⟩

/-- Witness for C4: an open door and a turned valve stay open/turned
across a concrete interact sequence that re-hits both. -/
theorem c4_transitions_one_way_witness :
    openedAt (initState [{ kind := .door, opened := true }, { kind := .valve, turned := true }] [] none 0) 0 = true ∧
    turnedAt (initState [{ kind := .door, opened := true }, { kind := .valve, turned := true }] [] none 0) 1 = true ∧
    openedAt (runInteracts [some 0, some 1, some 0]
      (initState [{ kind := .door, opened := true }, { kind := .valve, turned := true }] [] none 0)) 0 = true ∧
    turnedAt (runInteracts [some 0, some 1, some 0]
      (initState [{ kind := .door, opened := true }, { kind := .valve, turned := true }] [] none 0)) 1 = true := by
  refine ⟨by decide, by decide, ?_, ?_⟩
  · exact (c4_transitions_one_way [some 0, some 1, some 0] _).1 0 (by decide)
  · exact (c4_transitions_one_way [some 0, some 1, some 0] _).2.1 1 (by decide)

/-- Projection of one unturned-valve interact: the counter increments
by one and only the hit valve's record flips to turned. -/
lemma tryInteract_valve_unturned (s : GameState) (i : ℕ) (o : ObjState)
    (hp : s.paused = false) (hn : s.noteOpen = false)
    (ho : s.objs[i]? = some o) (hok : o.kind = .valve)
    (hoi : o.interactable = true) (hot : o.turned = false) :
    (tryInteract (some i) s).paused = false ∧
    (tryInteract (some i) s).noteOpen = false ∧
    (tryInteract (some i) s).valvesTurned = s.valvesTurned + 1 ∧
    (tryInteract (some i) s).objs =
      s.objs.set i
        { o with turned := true, wheelSpins := o.wheelSpins + 1, indicColor := 0x00ff00 } := by
  refine ⟨?_, ?_, ?_, ?_⟩ <;>
    simp [tryInteract, hp, hn, ho, hoi, dispatch, hok, hot, showHint, playCue,
      apply_ite GameState.paused, apply_ite GameState.noteOpen,
      apply_ite GameState.valvesTurned, apply_ite GameState.objs]

/-- Projection of an already-turned-valve interact: only the
collectibles counter changes. -/
lemma tryInteract_valve_turned (s : GameState) (i : ℕ) (o : ObjState)
    (hp : s.paused = false) (hn : s.noteOpen = false)
    (ho : s.objs[i]? = some o) (hok : o.kind = .valve)
    (hoi : o.interactable = true) (hot : o.turned = true) :
    tryInteract (some i) s = { s with collectiblesFound := s.collectiblesFound + 1 } := by
  simp [tryInteract, hp, hn, ho, hoi, dispatch, hok, hot]

/-- Invariant-carrying run lemma for the valve puzzle: if the three
records are valves whose `turned` flags mark exactly the set `A` and
the counter equals `|A|`, then after interacting along `seq` the flags
mark `A ∪ seq` and the counter equals `|A ∪ seq|`. -/
lemma valve_run (seq : List (Fin 3)) (s : GameState) (A : Finset (Fin 3))
    (hp : s.paused = false) (hn : s.noteOpen = false)
    (hobj : ∀ j : Fin 3, ∃ o : ObjState, s.objs[j.val]? = some o ∧ o.kind = .valve ∧
      o.interactable = true ∧ o.turned = decide (j ∈ A))
    (hcnt : s.valvesTurned = A.card) :
    (runInteracts (seq.map fun i => some i.val) s).valvesTurned = (A ∪ seq.toFinset).card ∧
    ∀ j : Fin 3, ∃ o : ObjState,
      (runInteracts (seq.map fun i => some i.val) s).objs[j.val]? = some o ∧
      o.kind = .valve ∧ o.interactable = true ∧
      o.turned = decide (j ∈ A ∪ seq.toFinset) := by
  induction seq generalizing s A with
  | nil =>
    simp only [List.map_nil, runInteracts, List.foldl_nil, List.toFinset_nil,
      Finset.union_empty]
    exact ⟨hcnt, hobj⟩
  | cons i rest ih =>
    obtain ⟨o, ho, hok, hoi, hot⟩ := hobj i
    have hrw : runInteracts ((i :: rest).map fun k => some k.val) s =
        runInteracts (rest.map fun k => some k.val) (tryInteract (some i.val) s) := by
      simp [runInteracts]
    by_cases hiA : i ∈ A
    · have hot' : o.turned = true := by rw [hot]; simp [hiA]
      have heval := tryInteract_valve_turned s i.val o hp hn ho hok hoi hot'
      have hA : A ∪ (i :: rest).toFinset = A ∪ rest.toFinset := by
        rw [List.toFinset_cons, Finset.union_insert,
          Finset.insert_eq_self.mpr (Finset.mem_union_left _ hiA)]
      rw [hrw, heval, hA]
      exact ih _ A hp hn hobj hcnt
    · have hot' : o.turned = false := by rw [hot]; simp [hiA]
      obtain ⟨hp1, hn1, hc1, hobjs1⟩ :=
        tryInteract_valve_unturned s i.val o hp hn ho hok hoi hot'
      have hlen : i.val < s.objs.length := by
        by_contra hlt
        rw [List.getElem?_eq_none (Nat.le_of_not_lt hlt)] at ho
        exact Option.noConfusion ho
      have hobj1 : ∀ j : Fin 3, ∃ o1 : ObjState,
          (tryInteract (some i.val) s).objs[j.val]? = some o1 ∧ o1.kind = .valve ∧
          o1.interactable = true ∧ o1.turned = decide (j ∈ insert i A) := by
        intro j
        rw [hobjs1, List.getElem?_set]
        by_cases hij : i = j
        · subst hij
          refine ⟨{ o with turned := true, wheelSpins := o.wheelSpins + 1, indicColor := 0x00ff00 },
            by simp [hlen], hok, hoi, by simp⟩
        · have hijv : i.val ≠ j.val := fun hv => hij (Fin.val_injective hv)
          obtain ⟨oj, hoj, hojk, hoji, hojt⟩ := hobj j
          refine ⟨oj, by simp [hijv, hoj], hojk, hoji, ?_⟩
          rw [hojt]
          have hji : ¬j = i := fun h => hij h.symm
          simp [Finset.mem_insert, hji]
      have hc1' : (tryInteract (some i.val) s).valvesTurned = (insert i A).card := by
        rw [hc1, hcnt, Finset.card_insert_of_not_mem hiA]
      have hA : A ∪ (i :: rest).toFinset = insert i A ∪ rest.toFinset := by
        rw [List.toFinset_cons, Finset.union_insert, Finset.insert_union]
      rw [hrw, hA]
      exact ih _ (insert i A) hp1 hn1 hobj1 hc1'

/-- Claim C3: Starting from the built level (all three valves unturned,
counter 0), after any sequence of interacts on the three valves the
shared `valvesTurned` counter equals the number of distinct valves
interacted with, and a valve's `turned` flag is set exactly when it
appeared in the sequence: the first interact on an unturned valve turns
it and adds one, and re-interacting an already-turned valve changes
neither the counter nor the flag. -/
theorem c3_valve_counter_counts_distinct (seq : List (Fin 3)) :
    (interactValves seq).valvesTurned = seq.toFinset.card ∧
    ∀ j : Fin 3, turnedAt (interactValves seq) j.val = decide (j ∈ seq) := by
  have h := valve_run seq valvesInit ∅ rfl rfl ?_ rfl
  · refine ⟨?_, fun j => ?_⟩
    · rw [interactValves, h.1, Finset.empty_union]
    · obtain ⟨o, ho, _, _, hot⟩ := h.2 j
      rw [interactValves, turnedAt, ho]
      simp [hot]
  · intro j
    refine ⟨valveObj, ?_, rfl, rfl, by simp [valveObj]⟩
    match j with
    | ⟨0, _⟩ => rfl
    | ⟨1, _⟩ => rfl
    | ⟨2, _⟩ => rfl

/-- The dispatch never touches the collectibles counter itself (the
increment happens after it, in `tryInteract`). -/
lemma dispatch_collectibles (i : ℕ) (obj : ObjState) (s : GameState) :
    (dispatch i obj s).1.collectiblesFound = s.collectiblesFound := by
  cases hk : obj.kind <;>
    simp [dispatch, hk, openDoor, openSecurityDoor, openNote, showHint, playCue,
      apply_ite (GameState.collectiblesFound)] <;>
    (repeat' split) <;> rfl

/-- The fall-through flag of the dispatch, in closed form: false
exactly for the sealed-hatch, opened-escape-door and
opened-security-door early returns. -/
lemma dispatch_snd (i : ℕ) (obj : ObjState) (s : GameState) :
    (dispatch i obj s).2 =
      (!(decide (obj.kind = .hatch) && (!s.finalTerminalRead || !obj.interactable)) &&
       !(decide (obj.kind = .escape_door) && obj.opened) &&
       !(decide (obj.kind = .locked_door) && obj.opened)) := by
  cases hk : obj.kind
  case hatch =>
    cases hftr : s.finalTerminalRead <;> cases hfi : obj.interactable <;>
      simp [dispatch, hk, hftr, hfi, showHint, playCue]
  case escape_door =>
    cases hop : obj.opened <;> cases hk10 : s.hasKeycard10 <;>
      simp [dispatch, hk, hop, hk10, showHint, playCue]
  case locked_door =>
    cases hop : obj.opened <;> cases hkc : s.hasKeycard <;>
      simp [dispatch, hk, hop, hkc, openSecurityDoor, showHint, playCue]
  case valve =>
    cases htn : obj.turned <;> simp [dispatch, hk, htn, showHint, playCue]
  all_goals simp [dispatch, hk, openDoor, openNote, showHint, playCue]

/-- Claim C8 amended: `tryInteract` increments `collectiblesFound` by
exactly one when `incrCond` holds — i.e. on every dispatched
interaction that does not early-return, which includes unsuccessful
ones (keycard rejections, re-interacting an open plain door or a turned
valve) — and leaves it unchanged otherwise. -/
theorem c8_collectibles_increment (hit : Option ℕ) (s : GameState) :
    (tryInteract hit s).collectiblesFound =
      s.collectiblesFound + cond (incrCond hit s) 1 0 := by
  cases hit with
  | none => simp [tryInteract, incrCond]
  | some i =>
    cases hobj : s.objs[i]? with
    | none => simp [tryInteract, incrCond, hobj]
    | some obj =>
      by_cases hps : (s.paused || s.noteOpen) = true
      · simp [tryInteract, incrCond, hobj, hps]
      · have hps' : (s.paused || s.noteOpen) = false := by
          cases h : s.paused || s.noteOpen
          · rfl
          · exact absurd h hps
        by_cases hfi : obj.interactable = false
        · simp [tryInteract, incrCond, hobj, hps', hfi]
        · have hfi' : obj.interactable = true := by
            cases h : obj.interactable
            · exact absurd h hfi
            · rfl
          have hd2 := dispatch_snd i obj s
          have hd1 := dispatch_collectibles i obj s
          cases hd : dispatch i obj s with
          | mk s1 b =>
            rw [hd] at hd1 hd2
            simp only at hd1 hd2
            cases b with
            | false =>
              have hred : tryInteract (some i) s = s1 := by
                simp [tryInteract, hps', hobj, hfi', hd]
              rw [hred, hd1]
              simp only [incrCond, hobj]
              rw [← hd2]
              simp
            | true =>
              have hred : tryInteract (some i) s =
                  { s1 with collectiblesFound := s1.collectiblesFound + 1 } := by
                simp [tryInteract, hps', hobj, hfi', hd]
              rw [hred]
              simp only [incrCond, hobj]
              rw [← hd2]
              simp [hd1, hps', hfi']

/-- Claim C8 counterexample: The claim says the counter increments only
on successful interactions; but interacting with the locked security
door without the keycard — a rejected interaction that changes no
object state and collects nothing, only playing the denied tone and a
hint — still increments `collectiblesFound` from 0 to 1. -/
theorem c8_collectibles_increment_counterexample :
    (tryInteract (some 0) c8State).collectiblesFound = 1 ∧
    openedAt (tryInteract (some 0) c8State) 0 = false ∧
    (tryInteract (some 0) c8State).hasKeycard = false ∧
    (tryInteract (some 0) c8State).objs = c8State.objs ∧
    (tryInteract (some 0) c8State).cues = [Cue.tone 150 150 100] := by
  decide

/-- Claim C10 counterexample: The claim says that in every case other
than `interactable ∧ finalTerminalRead` the interact is rejected *with
a 'sealed' hint*; but interacting with the hatch while its
`interactable` flag is false is rejected silently by the dispatcher's
`userData.interactable === false` guard: the state is wholly unchanged
and no hint is emitted. -/
theorem c10_hatch_guard_counterexample :
    tryInteract (some 0) c10State = c10State ∧
    (tryInteract (some 0) c10State).hints = [] := by
  decide

/-- Claim C10 amended: Interacting with the maintenance hatch teleports
the player to `(-13, -2.3, -26)` exactly when the hatch's
`interactable` flag and the final-terminal-read flag are both set; with
`interactable` set but the final terminal unread — in particular after
the rooftop trigger zone started the cinematic, which unlocks the hatch
without the terminal having been read — it is rejected with the
'sealed' hint and the position is unchanged; and with `interactable`
false the dispatcher rejects it silently, the state unchanged. -/
theorem c10_hatch_guard (s : GameState) (i : ℕ) (obj : ObjState)
    (hobj : s.objs[i]? = some obj) (hk : obj.kind = .hatch)
    (hp : s.paused = false) (hn : s.noteOpen = false) :
    (obj.interactable = true → s.finalTerminalRead = true →
      (tryInteract (some i) s).cameraPos = ⟨-1300, -230, -2600⟩) ∧
    (obj.interactable = true → s.finalTerminalRead = false →
      (tryInteract (some i) s).cameraPos = s.cameraPos ∧
      (tryInteract (some i) s).hints = s.hints ++ ["The hatch is sealed shut"]) ∧
    (obj.interactable = false → tryInteract (some i) s = s) ∧
    ((runOps c10RooftopOps c10State).cameraPos = c10State.cameraPos ∧
      ((runOps c10RooftopOps c10State).objs[0]?.map fun o => o.interactable) = some true ∧
      (runOps c10RooftopOps c10State).finalTerminalRead = false ∧
      (runOps c10RooftopOps c10State).hints.getLast? = some ("The hatch is sealed shut")) := by
  refine ⟨?_, ?_, ?_, by decide⟩
  · intro hint hftr
    simp [tryInteract, hp, hn, hobj, hint, dispatch, hk, hftr, showHint, playCue, playerHeight]
  · intro hint hftr
    constructor <;>
      simp [tryInteract, hp, hn, hobj, hint, dispatch, hk, hftr, showHint, playCue]
  · intro hint
    simp [tryInteract, hp, hn, hobj, hint]

/-- Witness for C10: a hatch with `interactable` already true and the
final terminal read teleports the player to `(-13, -2.3, -26)`; the
hypotheses hold by computation. -/
theorem c10_hatch_guard_witness :
    ({ initState [{ kind := .hatch }] [] (some 0) 0 with finalTerminalRead := true } :
        GameState).objs[0]? = some { kind := .hatch } ∧
    (tryInteract (some 0)
        { initState [{ kind := .hatch }] [] (some 0) 0 with finalTerminalRead := true }).cameraPos =
      ⟨-1300, -230, -2600⟩ :=
  ⟨rfl,
    (c10_hatch_guard
      { initState [{ kind := .hatch }] [] (some 0) 0 with finalTerminalRead := true }
      0 { kind := .hatch } rfl rfl rfl rfl).1 rfl rfl⟩

/-- Claim C5: Without the keycard the locked security door stays locked —
`opened` stays false and the door record is unchanged — while the
low-pitched denied tone (150 Hz) plays and a hint is emitted (and, the
model being a total function, nothing throws).  After collecting the
keycard, interacting again opens the door, turns its indicator green,
and the scheduled completion retracts both referenced colliders; any
subsequent interact on the door is a no-op on the session state. -/
theorem c5_security_door_scenario :
    openedAt c5AfterDenied 0 = false ∧
    c5AfterDenied.hints = ["LOCKED - You need a security access card"] ∧
    c5AfterDenied.cues = [Cue.tone 150 150 100] ∧
    c5AfterDenied.objs = c5Init.objs ∧
    c5AfterKeycard.hasKeycard = true ∧
    openedAt c5AfterOpen 0 = true ∧
    (c5AfterOpen.objs[0]?.map fun o => o.indicColor) = some 0x00ff00 ∧
    c5AfterRetract.wallBoxes = [Box3.emptyBox, Box3.emptyBox] ∧
    c5Reinteract = c5AfterRetract := by
  decide

end Caisterstorm

